import Mathlib

/-
Verification of the Channel lifecycle and argument-marshalling layer of
grpc-node's native extension (packages/grpc-native-core/ext/channel.cc).

The C++ source is shallowly embedded below.  JavaScript (V8) values visible at
the Nan/N-API boundary are modelled by the inductive type JsValue; the native
channel-argument array built by ParseChannelArgs is modelled as a list of
GrpcArg records in which an unpopulated (calloc-zeroed) slot has a none key
and a none value; every call into the external grpc C core is recorded as an
Effect so that theorems can speak about which native operations a code path
performs.  The build-time version macro GRPC_NODE_VERSION is not part of the
source tree, so every definition that mentions the user-agent string is
parameterised by the version string ver.
-/

namespace GrpcNode

/-- JS values as the channel.cc code observes them through the Nan API.
Numbers are split into integral numbers (intNum, carrying the integer value)
and non-integral numbers (fracNum); the type-membership predicates below
(IsInt32, IsUint32, IsNumber and so on) are what the code actually branches
on.  A ChannelCredentials wrapper instance is credsObj (its payload is the
wrapped native credentials pointer, none when the credentials were created
insecure); a Call wrapper instance is callObj. -/
inductive JsValue where
  | undefined
  | nullVal
  | boolean (b : Bool)
  | intNum (n : Int)
  | fracNum
  | str (s : String)
  | date (t : Int)
  | func (id : Nat)
  | obj (entries : List (String × JsValue))
  | credsObj (wrapped : Option Nat)
  | callObj (handle : Nat)

namespace JsValue

/-- v8 Value::IsInt32: an integral number representable in a signed 32-bit
integer. -/
def isInt32 : JsValue → Bool
  | .intNum n => decide (-((2 : Int) ^ 31) ≤ n ∧ n < (2 : Int) ^ 31)
  | _ => false

/-- v8 Value::IsUint32: an integral number representable in an unsigned
32-bit integer. -/
def isUint32 : JsValue → Bool
  | .intNum n => decide (0 ≤ n ∧ n < (2 : Int) ^ 32)
  | _ => false

/-- v8 Value::IsNumber. -/
def isNumber : JsValue → Bool
  | .intNum _ => true
  | .fracNum => true
  | _ => false

/-- v8 Value::IsString. -/
def isString : JsValue → Bool
  | .str _ => true
  | _ => false

/-- v8 Value::IsDate. -/
def isDate : JsValue → Bool
  | .date _ => true
  | _ => false

/-- v8 Value::IsFunction. -/
def isFunction : JsValue → Bool
  | .func _ => true
  | _ => false

/-- v8 IsUndefined() || IsNull(). -/
def isNullOrUndefined : JsValue → Bool
  | .undefined => true
  | .nullVal => true
  | _ => false

/-- Nan::To of an unsigned 32-bit integer, meaningful when isUint32 holds. -/
def toUint32 : JsValue → Nat
  | .intNum n => n.toNat
  | _ => 0

/-- Nan::To of a double, restricted to the integral values the model tracks
(integral numbers and date time values); meaningful when isNumber or isDate
holds on an integral value. -/
def toDouble : JsValue → Int
  | .intNum n => n
  | .date t => t
  | _ => 0

/-- Nan::Utf8String contents of a string value. -/
def asString : JsValue → String
  | .str s => s
  | _ => ""

end JsValue

/-- StrictEquals(Nan::True()): true exactly on the boolean value true
(channel.cc line 292). -/
def StrictEqualsTrue : JsValue → Bool
  | .boolean true => true
  | _ => false

/-- The value union of one grpc_arg: GRPC_ARG_INTEGER or GRPC_ARG_STRING. -/
inductive ArgValue where
  | integer (n : Int)
  | string (s : String)
  deriving DecidableEq, Repr

/-- One grpc_arg slot of the calloc-allocated array.  A slot that the parse
loop never reached keeps its calloc-zeroed contents, modelled as a none key
and a none value; a populated slot has some key and some value. -/
structure GrpcArg where
  key : Option String
  value : Option ArgValue
  deriving DecidableEq, Repr

/-- A calloc-zeroed, never-populated grpc_arg slot. -/
def emptyArg : GrpcArg := { key := none, value := none }

/-- The identification (primary user agent) channel-argument key. -/
def GRPC_ARG_PRIMARY_USER_AGENT_STRING : String := "grpc.primary_user_agent"

/-- The fixed identification string (channel.cc line 60); GRPC_NODE_VERSION
is a build-time macro outside the source tree, so the version is a
parameter. -/
def grpc_node_user_agent (ver : String) : String := "grpc-node/" ++ ver

/-- PopulateUserAgentChannelArg (channel.cc lines 62-71): the injected
standard user-agent argument, key GRPC_ARG_PRIMARY_USER_AGENT_STRING and
string value grpc_node_user_agent. -/
def PopulateUserAgentChannelArg (ver : String) : GrpcArg :=
  { key := some GRPC_ARG_PRIMARY_USER_AGENT_STRING,
    value := some (ArgValue.string (grpc_node_user_agent ver)) }

/-- The value-conversion step of one iteration of the ParseChannelArgs loop
(channel.cc lines 107-141): an Int32 number becomes an integer argument, a
string becomes a string argument (with the fixed identification string
appended after a space when the key is the identification key), and any
other value type is a parse failure (none). -/
def encodeValue (ver k : String) : JsValue → Option ArgValue
  | .intNum n =>
    if -((2 : Int) ^ 31) ≤ n ∧ n < (2 : Int) ^ 31 then some (ArgValue.integer n)
    else none
  | .str s =>
    if k = GRPC_ARG_PRIMARY_USER_AGENT_STRING then
      some (ArgValue.string (s ++ " " ++ grpc_node_user_agent ver))
    else
      some (ArgValue.string s)
  | _ => none

/-- Values that the encoder accepts: Int32 numbers and strings (channel.cc
lines 107, 110). -/
def goodValue : JsValue → Bool
  | .intNum n => decide (-((2 : Int) ^ 31) ≤ n ∧ n < (2 : Int) ^ 31)
  | .str _ => true
  | _ => false

/-- The arg a successful loop iteration leaves at index i: key populated and
value populated from encodeValue. -/
def mkArg (ver : String) (p : String × JsValue) : GrpcArg :=
  { key := some p.1, value := encodeValue ver p.1 p.2 }

/-- The per-key loop of ParseChannelArgs (channel.cc lines 99-145): walks the
own-property entries left to right, populating one slot per entry (the value
union first, then the key, with no failure possible in between), and stops
with failure at the first value that is neither an Int32 number nor a
string.  Returns the populated slots and the success flag. -/
def parseArgsLoop (ver : String) : List (String × JsValue) → List GrpcArg × Bool
  | [] => ([], true)
  | (k, v) :: rest =>
    match encodeValue ver k v with
    | none => ([], false)
    | some av =>
      let r := parseArgsLoop ver rest
      ({ key := some k, value := some av } :: r.1, r.2)

/-- Null and undefined are treated the same as an empty object (channel.cc
lines 75-78). -/
def normalizeArgsVal : JsValue → JsValue
  | .undefined => .obj []
  | .nullVal => .obj []
  | v => v

/-- ParseChannelArgs (channel.cc lines 73-152).  Returns the channel_args
array written through channel_args_ptr (none when the input was not an
object) together with the boolean parse result.  On success with no
user-supplied identification key, the extra reserved slot is populated by
PopulateUserAgentChannelArg; on failure the array keeps its calloc-zeroed
tail of unpopulated slots. -/
def ParseChannelArgs (ver : String) (args_val : JsValue) :
    Option (List GrpcArg) × Bool :=
  match normalizeArgsVal args_val with
  | JsValue.obj entries =>
    let has_user_agent_arg :=
      GRPC_ARG_PRIMARY_USER_AGENT_STRING ∈ entries.map Prod.fst
    let num_args := entries.length + (if has_user_agent_arg then 0 else 1)
    match parseArgsLoop ver entries with
    | (populated, true) =>
      (some (populated ++
        (if has_user_agent_arg then [] else [PopulateUserAgentChannelArg ver])),
       true)
    | (populated, false) =>
      (some (populated ++ List.replicate (num_args - populated.length) emptyArg),
       false)
  | _ => (none, false)

/-- DeallocateChannelArgs (channel.cc lines 154-171): scans the slots left to
right, freeing each populated slot (its key, and its value string when the
value is a string), and stops at the first slot whose key is null.  The
result is the list of slots whose storage the loop frees; a none argument
frees nothing. -/
def DeallocateChannelArgs : Option (List GrpcArg) → List GrpcArg
  | none => []
  | some args => args.takeWhile (fun a => a.key.isSome)

/-- The Channel wrapper object: owns one nullable native channel handle
(channel.cc channel.h field wrapped_channel). -/
structure Channel where
  wrapped_channel : Option Nat
  deriving DecidableEq, Repr

/-- Calls into the external grpc C core (and the two auxiliary releases in
CreateCall), recorded in the order a code path performs them. -/
inductive Effect where
  | destroy_channel (h : Nat)
  | insecure_channel_create (target : String)
  | secure_channel_create (creds : Nat) (target : String)
  | deallocate_args
  | get_target (h : Nat)
  | check_connectivity_state (h : Nat) (try_to_connect : Bool)
  | watch_connectivity_state (h : Nat) (last_state : Nat) (deadline : Int)
  | completion_queue_next
  | slice_create (s : String)
  | slice_unref (s : String)
  | host_slice_delete
  | channel_create_call (h : Nat) (parent : Option Nat) (flags : Nat)
      (method : String) (host : Option String) (deadline : Int)
  deriving DecidableEq, Repr

/-- True on the native-handle release effect. -/
def isDestroy : Effect → Bool
  | .destroy_channel _ => true
  | _ => false

/-- Outcome of one prototype-method invocation: a thrown TypeError, a thrown
plain Error, or a normal return (void, string, state code, or a wrapped
call whose native handle may itself be null). -/
inductive MethodResult where
  | typeError (msg : String)
  | errorThrown (msg : String)
  | retVoid
  | retString (s : String)
  | retState (st : Nat)
  | retCall (c : Option Nat)
  deriving DecidableEq, Repr

/-- Outcome of the Channel constructor: a thrown TypeError or a wrapped
instance. -/
inductive NewResult where
  | typeError (msg : String)
  | created (c : Channel)
  deriving DecidableEq, Repr

/-- True when the constructor outcome is a failure. -/
def newFailed : NewResult → Bool
  | .typeError _ => true
  | .created _ => false

/-- ChannelCredentials::HasInstance, as Channel::New consumes it: true
exactly on ChannelCredentials wrapper instances. -/
def credsInstance : JsValue → Bool
  | .credsObj _ => true
  | _ => false

/-- Channel::New, construct-call path (channel.cc lines 206-241).  arg0 is
the target, arg1 the credentials, arg2 the options object; engine_channel is
the handle the external engine returns from the channel-creation call (null
is possible and is not checked by the code).  The non-construct calling
convention (lines 242-253) only re-enters this path. -/
def Channel.New (ver : String) (arg0 arg1 arg2 : JsValue)
    (engine_channel : Option Nat) : NewResult × List Effect :=
  if !arg0.isString then
    (.typeError "Channel expects a string, a credential and an object", [])
  else
    match arg1 with
    | .credsObj creds =>
      if !(ParseChannelArgs ver arg2).2 then
        (.typeError
          "Channel options must be an object with string keys and integer or string values",
         [Effect.deallocate_args])
      else
        match creds with
        | none =>
          (.created { wrapped_channel := engine_channel },
           [Effect.insecure_channel_create arg0.asString, Effect.deallocate_args])
        | some cr =>
          (.created { wrapped_channel := engine_channel },
           [Effect.secure_channel_create cr arg0.asString, Effect.deallocate_args])
    | _ => (.typeError "Channel second argument must be a ChannelCredentials", [])

/-- Channel::Close (channel.cc lines 256-265): destroys the native handle if
it is still present and nulls it; a no-op on an already-closed channel. -/
def Channel.Close (c : Channel) : Channel × List Effect :=
  match c.wrapped_channel with
  | some h => ({ wrapped_channel := none }, [Effect.destroy_channel h])
  | none => (c, [])

/-- The Channel destructor (channel.cc lines 175-180): destroys the native
handle only when it is still present. -/
def Channel.destructor (c : Channel) : List Effect :=
  match c.wrapped_channel with
  | some h => [Effect.destroy_channel h]
  | none => []

/-- n successive Close invocations, accumulating effects. -/
def closeN : Nat → Channel → Channel × List Effect
  | 0, c => (c, [])
  | n + 1, c =>
    let r := Channel.Close c
    let r2 := closeN n r.1
    (r2.1, r.2 ++ r2.2)

/-- The native effects of n Close invocations followed by teardown. -/
def lifecycleEvents (n : Nat) (c : Channel) : List Effect :=
  let r := closeN n c
  r.2 ++ Channel.destructor r.1

/-- Channel::GetTarget (channel.cc lines 267-280); target is the string the
external engine returns for the handle. -/
def Channel.GetTarget (c : Channel) (target : String) : MethodResult × List Effect :=
  match c.wrapped_channel with
  | none => (.errorThrown "Cannot call getTarget on a closed Channel", [])
  | some h => (.retString target, [Effect.get_target h])

/-- Channel::GetConnectivityState (channel.cc lines 282-295); state is the
state code the external engine returns.  The try_to_connect flag handed to
the engine is StrictEqualsTrue of the first argument; no argument type is
checked. -/
def Channel.GetConnectivityState (c : Channel) (arg0 : JsValue) (state : Nat) :
    MethodResult × List Effect :=
  match c.wrapped_channel with
  | none => (.errorThrown "Cannot call getConnectivityState on a closed Channel", [])
  | some h =>
    (.retState state, [Effect.check_connectivity_state h (StrictEqualsTrue arg0)])

/-- Channel::WatchConnectivityState (channel.cc lines 297-330): the three
argument checks run first (Uint32 state, number-or-date deadline, function
callback), then the closed check; only then is the watch registered with the
completion queue and the queue prodded. -/
def Channel.WatchConnectivityState (c : Channel) (arg0 arg1 arg2 : JsValue) :
    MethodResult × List Effect :=
  if !arg0.isUint32 then
    (.typeError "watchConnectivityState first argument must be a channel state", [])
  else if !(arg1.isNumber || arg1.isDate) then
    (.typeError "watchConnectivityState second argument must be a date or a number", [])
  else if !arg2.isFunction then
    (.typeError "watchConnectivityState third argument must be a callback", [])
  else
    match c.wrapped_channel with
    | none =>
      (.errorThrown "Cannot call watchConnectivityState on a closed Channel", [])
    | some h =>
      (.retVoid,
       [Effect.watch_connectivity_state h arg0.toUint32 arg1.toDouble,
        Effect.completion_queue_next])

/-- GRPC_PROPAGATE_DEFAULTS from the grpc core headers. -/
def GRPC_PROPAGATE_DEFAULTS : Nat := 65535

/-- The parent-call argument handling of Channel::CreateCall (channel.cc
lines 352-360): a Call instance yields its wrapped handle, undefined and
null yield no parent, anything else is a type error (none). -/
def parentOf : JsValue → Option (Option Nat)
  | .callObj h => some (some h)
  | .undefined => some none
  | .nullVal => some none
  | _ => none

/-- The propagation-flags argument handling of Channel::CreateCall
(channel.cc lines 361-367): a Uint32 yields its value, undefined and null
yield the default mask, anything else is a type error (none). -/
def flagsOf : JsValue → Option Nat
  | .intNum n =>
    if 0 ≤ n ∧ n < (2 : Int) ^ 32 then some n.toNat else none
  | .undefined => some GRPC_PROPAGATE_DEFAULTS
  | .nullVal => some GRPC_PROPAGATE_DEFAULTS
  | _ => none

/-- The three shapes the host argument of Channel::CreateCall can take
(channel.cc lines 377-391). -/
inductive HostCase where
  | hostString (s : String)
  | hostAbsent
  | hostBad

/-- Classifies the host argument: string, null-or-undefined, or invalid. -/
def hostCase : JsValue → HostCase
  | .str s => .hostString s
  | .undefined => .hostAbsent
  | .nullVal => .hostAbsent
  | _ => .hostBad

/-- Channel::CreateCall (channel.cc lines 332-394).  Argument checks run in
source order (method string, deadline number-or-date, parent call, flags),
then the closed check; after it the method slice is created, and the host
argument is only then examined.  On the string-host path the host slice is
created, the native call made, the heap-allocated host slice struct deleted
and the method slice unreffed; on the absent-host path the native call is
made and the method slice unreffed; on the invalid-host path the function
returns the type error directly, after the method slice was created but
before the unref of the method slice is reached.  engine_call is the handle
the external engine returns (possibly null, unchecked). -/
def Channel.CreateCall (c : Channel) (arg0 arg1 arg2 arg3 arg4 : JsValue)
    (engine_call : Option Nat) : MethodResult × List Effect :=
  if !arg0.isString then
    (.typeError "createCall first argument must be a string", [])
  else if !(arg1.isNumber || arg1.isDate) then
    (.typeError "createcall second argument must be a date or a number", [])
  else
    match parentOf arg3 with
    | none =>
      (.typeError "createCall fourth argument must be another call, if provided", [])
    | some parent_call =>
      match flagsOf arg4 with
      | none =>
        (.typeError "createCall fifth argument must be propagate flags, if provided", [])
      | some propagate_flags =>
        match c.wrapped_channel with
        | none => (.errorThrown "Cannot createCall with a closed Channel", [])
        | some h =>
          let method := arg0.asString
          let deadline := arg1.toDouble
          match hostCase arg2 with
          | HostCase.hostString s =>
            (.retCall engine_call,
             [Effect.slice_create method, Effect.slice_create s,
              Effect.channel_create_call h parent_call propagate_flags method
                (some s) deadline,
              Effect.host_slice_delete, Effect.slice_unref method])
          | HostCase.hostAbsent =>
            (.retCall engine_call,
             [Effect.slice_create method,
              Effect.channel_create_call h parent_call propagate_flags method
                none deadline,
              Effect.slice_unref method])
          | HostCase.hostBad =>
            (.typeError "createCall third argument must be a string",
             [Effect.slice_create method])

/-- Modelled from the spec: the connectivity-state enumeration recognized by
the glossary has the five states idle, connecting, ready, transient-failure
and shutdown, represented here as 0 through 4.  The enumeration itself lives
in the external grpc core headers, outside this source tree. -/
def recognizedConnectivityState (n : Nat) : Bool := n ≤ 4

/-- Follows the wording of spec section 4.1 for the value stored for one
user entry: integers are copied by value, strings are copied, and a string
under the identification key gets the fixed identification string appended
after one space.  Used to compare the encoder against the spec; arbitrary on
values the spec rejects. -/
def specExpectedValue (ver k : String) : JsValue → ArgValue
  | .intNum n => ArgValue.integer n
  | .str s =>
    if k = GRPC_ARG_PRIMARY_USER_AGENT_STRING then
      ArgValue.string (s ++ " " ++ grpc_node_user_agent ver)
    else
      ArgValue.string s
  | _ => ArgValue.integer 0

/-- Boolean key test used to inspect an argument list. -/
def keyIs (k : String) (a : GrpcArg) : Bool := decide (a.key = some k)

theorem encodeValue_isSome (ver k : String) (v : JsValue) :
    (encodeValue ver k v).isSome = goodValue v := by
  cases v <;> simp [encodeValue, goodValue]
  · split <;> simp_all
  · split <;> simp

theorem encodeValue_of_good (ver k : String) (v : JsValue)
    (h : goodValue v = true) :
    encodeValue ver k v = some (specExpectedValue ver k v) := by
  cases v <;> simp_all [encodeValue, goodValue, specExpectedValue]
  split <;> simp

theorem parseArgsLoop_of_good (ver : String) (l : List (String × JsValue))
    (h : ∀ p ∈ l, goodValue p.2 = true) :
    parseArgsLoop ver l = (l.map (mkArg ver), true) := by
  induction l with
  | nil => rfl
  | cons p rest ih =>
    obtain ⟨k, v⟩ := p
    have hv : goodValue v = true := h (k, v) (List.mem_cons_self _ _)
    have hrest : ∀ q ∈ rest, goodValue q.2 = true :=
      fun q hq => h q (List.mem_cons_of_mem _ hq)
    simp [parseArgsLoop, encodeValue_of_good ver k v hv, ih hrest, mkArg,
      encodeValue_of_good]

theorem parseArgsLoop_true_good (ver : String) (l : List (String × JsValue))
    (h : (parseArgsLoop ver l).2 = true) :
    ∀ p ∈ l, goodValue p.2 = true := by
  induction l with
  | nil => simp
  | cons p rest ih =>
    obtain ⟨k, v⟩ := p
    intro q hq
    rcases List.mem_cons.mp hq with hq | hq
    · subst hq
      by_contra hbad
      have hnone : encodeValue ver k v = none := by
        have := encodeValue_isSome ver k v
        cases henc : encodeValue ver k v with
        | none => rfl
        | some av => simp [henc] at this; simp [← this] at hbad
      simp [parseArgsLoop, hnone] at h
    · apply ih _ q hq
      cases henc : encodeValue ver k v with
      | none => simp [parseArgsLoop, henc] at h
      | some av => simpa [parseArgsLoop, henc] using h

theorem parseArgsLoop_of_bad (ver : String) (l : List (String × JsValue))
    (h : ∃ p ∈ l, goodValue p.2 = false) :
    (parseArgsLoop ver l).2 = false := by
  by_contra hne
  have : (parseArgsLoop ver l).2 = true := by
    cases hb : (parseArgsLoop ver l).2
    · exact absurd hb hne
    · rfl
  obtain ⟨p, hp, hbad⟩ := h
  have := parseArgsLoop_true_good ver l this p hp
  simp [this] at hbad

theorem parseArgsLoop_populated (ver : String) (l : List (String × JsValue)) :
    ∀ a ∈ (parseArgsLoop ver l).1, a.key.isSome = true ∧ a.value.isSome = true := by
  induction l with
  | nil => simp [parseArgsLoop]
  | cons p rest ih =>
    obtain ⟨k, v⟩ := p
    cases henc : encodeValue ver k v with
    | none => simp [parseArgsLoop, henc]
    | some av =>
      intro a ha
      simp only [parseArgsLoop, henc] at ha
      rcases List.mem_cons.mp ha with ha | ha
      · subst ha; simp
      · exact ih a ha

theorem takeWhile_filter_split {α : Type} (p : α → Bool) (l₁ l₂ : List α)
    (h1 : ∀ a ∈ l₁, p a = true) (h2 : ∀ a ∈ l₂, p a = false) :
    (l₁ ++ l₂).takeWhile p = l₁ ∧ (l₁ ++ l₂).filter p = l₁ := by
  induction l₁ with
  | nil =>
    simp only [List.nil_append]
    constructor
    · cases l₂ with
      | nil => rfl
      | cons b bs => simp [List.takeWhile, h2 b (List.mem_cons_self _ _)]
    · exact List.filter_eq_nil_iff.mpr (fun a ha => by simp [h2 a ha])
  | cons a as ih =>
    have ha : p a = true := h1 a (List.mem_cons_self _ _)
    have has : ∀ x ∈ as, p x = true := fun x hx => h1 x (List.mem_cons_of_mem _ hx)
    obtain ⟨ht, hf⟩ := ih has
    constructor
    · simp [List.takeWhile, ha, ht]
    · simp [List.filter, ha, hf]

theorem ParseChannelArgs_obj_of_good (ver : String)
    (entries : List (String × JsValue))
    (h : ∀ p ∈ entries, goodValue p.2 = true) :
    ParseChannelArgs ver (JsValue.obj entries) =
      (some (entries.map (mkArg ver) ++
        (if GRPC_ARG_PRIMARY_USER_AGENT_STRING ∈ entries.map Prod.fst then []
         else [PopulateUserAgentChannelArg ver])), true) := by
  simp [ParseChannelArgs, normalizeArgsVal, parseArgsLoop_of_good ver entries h]

theorem filter_keyIs_of_not_mem (ver k : String) (l : List (String × JsValue))
    (h : k ∉ l.map Prod.fst) :
    (l.map (mkArg ver)).filter (keyIs k) = [] := by
  induction l with
  | nil => rfl
  | cons p rest ih =>
    obtain ⟨k', v'⟩ := p
    have hk : k' ≠ k := by
      intro he; exact h (by simp [he])
    have hrest : k ∉ rest.map Prod.fst := fun hm => h (by simp [hm])
    simp [mkArg, keyIs, hk, ih hrest]

theorem filter_keyIs_of_mem (ver : String) (l : List (String × JsValue))
    (k : String) (v : JsValue)
    (hnd : (l.map Prod.fst).Nodup) (hm : (k, v) ∈ l) :
    (l.map (mkArg ver)).filter (keyIs k) = [mkArg ver (k, v)] := by
  induction l with
  | nil => simp at hm
  | cons p rest ih =>
    obtain ⟨k', v'⟩ := p
    simp only [List.map_cons, List.nodup_cons] at hnd
    obtain ⟨hk', hndr⟩ := hnd
    rcases List.mem_cons.mp hm with hm | hm
    · have hk : k = k' := by
        have := congrArg Prod.fst hm; simpa using this
      have hv : v = v' := by
        have := congrArg Prod.snd hm; simpa using this
      subst hk; subst hv
      have hnm : k ∉ rest.map Prod.fst := hk'
      simp [mkArg, keyIs, filter_keyIs_of_not_mem ver k rest hnm]
    · have hkmem : k ∈ rest.map Prod.fst := by
        exact List.mem_map.mpr ⟨(k, v), hm, rfl⟩
      have hne : k' ≠ k := by
        intro he; subst he; exact hk' hkmem
      simp [mkArg, keyIs, hne, ih hndr hm]

/-- C1: on every configuration object containing a value that is neither a
string nor an Int32 number, ParseChannelArgs returns false, and
DeallocateChannelArgs on the resulting partially-populated array frees
exactly the populated slots: the left-to-right scan that stops at the first
null key frees an entry if and only if that entry was populated, and every
populated entry also has its value populated (so nothing allocated is
leaked and nothing unallocated is freed). -/
theorem parse_failure_frees_exactly_populated (ver : String)
    (entries : List (String × JsValue))
    (hbad : ∃ p ∈ entries, goodValue p.2 = false) :
    ∃ args, ParseChannelArgs ver (JsValue.obj entries) = (some args, false) ∧
      DeallocateChannelArgs (some args) =
        args.filter (fun a => a.key.isSome) ∧
      ∀ a ∈ args, a.key.isSome = a.value.isSome := by
  have hloop : (parseArgsLoop ver entries).2 = false :=
    parseArgsLoop_of_bad ver entries hbad
  have hpop := parseArgsLoop_populated ver entries
  rcases hres : parseArgsLoop ver entries with ⟨pop, b⟩
  rw [hres] at hloop hpop
  simp only at hloop hpop
  subst hloop
  refine ⟨pop ++ List.replicate
      ((entries.length +
        (if GRPC_ARG_PRIMARY_USER_AGENT_STRING ∈ entries.map Prod.fst then 0 else 1))
        - pop.length) emptyArg, ?_, ?_, ?_⟩
  · simp [ParseChannelArgs, normalizeArgsVal, hres]
  · have h1 : ∀ a ∈ pop, (fun (x : GrpcArg) => x.key.isSome) a = true :=
      fun a ha => (hpop a ha).1
    have h2 : ∀ a ∈ List.replicate
        ((entries.length +
          (if GRPC_ARG_PRIMARY_USER_AGENT_STRING ∈ entries.map Prod.fst then 0 else 1))
          - pop.length) emptyArg, (fun (x : GrpcArg) => x.key.isSome) a = false := by
      intro a ha
      have : a = emptyArg := List.eq_of_mem_replicate ha
      subst this; rfl
    obtain ⟨ht, hf⟩ := takeWhile_filter_split (fun (x : GrpcArg) => x.key.isSome) _ _ h1 h2
    simp only [DeallocateChannelArgs]
    rw [ht, hf]
  · intro a ha
    rcases List.mem_append.mp ha with ha | ha
    · obtain ⟨h1, h2⟩ := hpop a ha
      rw [h1, h2]
    · have : a = emptyArg := List.eq_of_mem_replicate ha
      subst this; rfl

/-- C1 witness: the entry value true is neither a string nor an integer, so
encoding the one-entry object fails and deallocation frees exactly the
populated slots. -/
theorem parse_failure_frees_exactly_populated_witness :
    (∃ p ∈ [("k", JsValue.boolean true)], goodValue p.2 = false) ∧
    ∃ args,
      ParseChannelArgs "1.0" (JsValue.obj [("k", JsValue.boolean true)]) =
        (some args, false) ∧
      DeallocateChannelArgs (some args) =
        args.filter (fun a => a.key.isSome) ∧
      ∀ a ∈ args, a.key.isSome = a.value.isSome :=
  ⟨by decide,
   parse_failure_frees_exactly_populated "1.0" [("k", JsValue.boolean true)]
     (by decide)⟩

/-- C2 counterexample: with the one-entry mapping sending the identification
key to the string myapp/1.0, encoding succeeds but the resulting list does
not contain that key with its original value: the stored value is the
original, a space, and the fixed identification string.  So the claim that
every user key appears with its original value is false. -/
theorem user_agent_value_not_original :
    ParseChannelArgs "1.0"
      (JsValue.obj [(GRPC_ARG_PRIMARY_USER_AGENT_STRING, JsValue.str "myapp/1.0")]) =
      (some [{ key := some GRPC_ARG_PRIMARY_USER_AGENT_STRING,
               value := some (ArgValue.string "myapp/1.0 grpc-node/1.0") }], true) ∧
    { key := some GRPC_ARG_PRIMARY_USER_AGENT_STRING,
      value := some (ArgValue.string "myapp/1.0") } ∉
      ((ParseChannelArgs "1.0"
        (JsValue.obj [(GRPC_ARG_PRIMARY_USER_AGENT_STRING,
          JsValue.str "myapp/1.0")])).1.getD []) := by
  constructor
  · rfl
  · decide

/-- C2 (amended): for every configuration mapping (distinct keys) whose
values are all strings or Int32 integers, encoding succeeds, the resulting
list contains each user key exactly once — holding its original value,
except that a string value under the identification key is stored as the
original value, one space, then the fixed identification string — and the
list length is the number of user entries plus one when no user entry uses
the identification key, or exactly the number of user entries when one
does. -/
theorem encode_success_each_key_once (ver : String)
    (entries : List (String × JsValue))
    (hnd : (entries.map Prod.fst).Nodup)
    (hgood : ∀ p ∈ entries, goodValue p.2 = true) :
    (ParseChannelArgs ver (JsValue.obj entries)).2 = true ∧
    (∀ p ∈ entries,
      ((ParseChannelArgs ver (JsValue.obj entries)).1.getD []).filter (keyIs p.1) =
        [{ key := some p.1, value := some (specExpectedValue ver p.1 p.2) }]) ∧
    ((ParseChannelArgs ver (JsValue.obj entries)).1.getD []).length =
      entries.length +
        (if GRPC_ARG_PRIMARY_USER_AGENT_STRING ∈ entries.map Prod.fst then 0
         else 1) := by
  rw [ParseChannelArgs_obj_of_good ver entries hgood]
  refine ⟨rfl, ?_, ?_⟩
  · intro p hp
    obtain ⟨k, v⟩ := p
    simp only [Option.getD_some, List.filter_append]
    rw [filter_keyIs_of_mem ver entries k v hnd hp]
    have hmk : mkArg ver (k, v) =
        { key := some k, value := some (specExpectedValue ver k v) } := by
      simp [mkArg, encodeValue_of_good ver k v (hgood (k, v) hp)]
    by_cases hua : GRPC_ARG_PRIMARY_USER_AGENT_STRING ∈ entries.map Prod.fst
    · simp [hua, hmk]
    · have hk : k ≠ GRPC_ARG_PRIMARY_USER_AGENT_STRING := by
        intro he
        exact hua (he ▸ List.mem_map.mpr ⟨(k, v), hp, rfl⟩)
      have hk2 : GRPC_ARG_PRIMARY_USER_AGENT_STRING ≠ k := fun he => hk he.symm
      simp [hua, hmk, PopulateUserAgentChannelArg, keyIs, hk2]
  · by_cases hua : GRPC_ARG_PRIMARY_USER_AGENT_STRING ∈ entries.map Prod.fst <;>
      simp [hua]

/-- C2 witness: a two-entry mapping with an integer and a string value
encodes into a three-entry list (the extra injected identification entry),
each user key present exactly once with its expected value. -/
theorem encode_success_each_key_once_witness :
    ((([("grpc.enable_retries", JsValue.intNum 1),
        ("grpc.ssl_target_name_override", JsValue.str "h")] :
          List (String × JsValue)).map Prod.fst).Nodup ∧
      (∀ p ∈ [("grpc.enable_retries", JsValue.intNum 1),
        ("grpc.ssl_target_name_override", JsValue.str "h")],
          goodValue p.2 = true)) ∧
    ((ParseChannelArgs "1.0" (JsValue.obj [("grpc.enable_retries", JsValue.intNum 1),
        ("grpc.ssl_target_name_override", JsValue.str "h")])).2 = true ∧
      (∀ p ∈ [("grpc.enable_retries", JsValue.intNum 1),
          ("grpc.ssl_target_name_override", JsValue.str "h")],
        ((ParseChannelArgs "1.0"
            (JsValue.obj [("grpc.enable_retries", JsValue.intNum 1),
              ("grpc.ssl_target_name_override", JsValue.str "h")])).1.getD
            []).filter (keyIs p.1) =
          [{ key := some p.1, value := some (specExpectedValue "1.0" p.1 p.2) }]) ∧
      ((ParseChannelArgs "1.0" (JsValue.obj [("grpc.enable_retries", JsValue.intNum 1),
          ("grpc.ssl_target_name_override", JsValue.str "h")])).1.getD []).length =
        ([("grpc.enable_retries", JsValue.intNum 1),
          ("grpc.ssl_target_name_override", JsValue.str "h")] :
            List (String × JsValue)).length +
          (if GRPC_ARG_PRIMARY_USER_AGENT_STRING ∈
              ([("grpc.enable_retries", JsValue.intNum 1),
                ("grpc.ssl_target_name_override", JsValue.str "h")] :
                  List (String × JsValue)).map Prod.fst then 0
           else 1)) :=
  ⟨⟨by decide, by decide⟩,
   encode_success_each_key_once "1.0"
     [("grpc.enable_retries", JsValue.intNum 1),
      ("grpc.ssl_target_name_override", JsValue.str "h")]
     (by decide) (by decide)⟩

/-- C3: in every successful encoding pass over a mapping with distinct keys,
if the mapping contains the identification key with a string value then the
single output entry under that key holds the user string, one space, then
the fixed identification string, and no extra entry is added (the length
equals the number of user entries); if the identification key is absent,
exactly one extra entry is added holding exactly the fixed identification
string. -/
theorem user_agent_entry_content (ver : String)
    (entries : List (String × JsValue))
    (hnd : (entries.map Prod.fst).Nodup)
    (hok : (ParseChannelArgs ver (JsValue.obj entries)).2 = true) :
    (∀ s : String,
      (GRPC_ARG_PRIMARY_USER_AGENT_STRING, JsValue.str s) ∈ entries →
        ((ParseChannelArgs ver (JsValue.obj entries)).1.getD []).filter
            (keyIs GRPC_ARG_PRIMARY_USER_AGENT_STRING) =
          [{ key := some GRPC_ARG_PRIMARY_USER_AGENT_STRING,
             value := some (ArgValue.string
               (s ++ " " ++ grpc_node_user_agent ver)) }] ∧
        ((ParseChannelArgs ver (JsValue.obj entries)).1.getD []).length =
          entries.length) ∧
    (GRPC_ARG_PRIMARY_USER_AGENT_STRING ∉ entries.map Prod.fst →
      ((ParseChannelArgs ver (JsValue.obj entries)).1.getD []).filter
          (keyIs GRPC_ARG_PRIMARY_USER_AGENT_STRING) =
        [{ key := some GRPC_ARG_PRIMARY_USER_AGENT_STRING,
           value := some (ArgValue.string (grpc_node_user_agent ver)) }] ∧
      ((ParseChannelArgs ver (JsValue.obj entries)).1.getD []).length =
        entries.length + 1) := by
  have hgood : ∀ p ∈ entries, goodValue p.2 = true := by
    intro p hp
    apply parseArgsLoop_true_good ver entries _ p hp
    rcases hres : parseArgsLoop ver entries with ⟨pop, b⟩
    cases b
    · simp [ParseChannelArgs, normalizeArgsVal, hres] at hok
    · rfl
  rw [ParseChannelArgs_obj_of_good ver entries hgood]
  constructor
  · intro s hs
    have hua : GRPC_ARG_PRIMARY_USER_AGENT_STRING ∈ entries.map Prod.fst :=
      List.mem_map.mpr ⟨(GRPC_ARG_PRIMARY_USER_AGENT_STRING, JsValue.str s), hs, rfl⟩
    simp only [Option.getD_some, List.filter_append, hua, if_pos, List.append_nil,
      List.length_append, List.length_map]
    constructor
    · rw [filter_keyIs_of_mem ver entries GRPC_ARG_PRIMARY_USER_AGENT_STRING
        (JsValue.str s) hnd hs]
      simp [mkArg, encodeValue]
    · simp [hua]
  · intro hua
    simp only [Option.getD_some, List.filter_append, hua, if_neg, List.length_append]
    constructor
    · rw [filter_keyIs_of_not_mem ver GRPC_ARG_PRIMARY_USER_AGENT_STRING entries hua]
      simp [hua, PopulateUserAgentChannelArg, keyIs]
    · simp [hua]

/-- C3 witness: with the identification key mapped to myapp/1.0, the single
identification entry holds the concatenation, and with it absent, the
injected entry holds exactly the fixed string (instantiated at the first
conjunct). -/
theorem user_agent_entry_content_witness :
    ((([(GRPC_ARG_PRIMARY_USER_AGENT_STRING, JsValue.str "myapp/1.0")] :
        List (String × JsValue)).map Prod.fst).Nodup ∧
      (ParseChannelArgs "1.0"
        (JsValue.obj [(GRPC_ARG_PRIMARY_USER_AGENT_STRING,
          JsValue.str "myapp/1.0")])).2 = true) ∧
    ((ParseChannelArgs "1.0"
        (JsValue.obj [(GRPC_ARG_PRIMARY_USER_AGENT_STRING,
          JsValue.str "myapp/1.0")])).1.getD []).filter
        (keyIs GRPC_ARG_PRIMARY_USER_AGENT_STRING) =
      [{ key := some GRPC_ARG_PRIMARY_USER_AGENT_STRING,
         value := some (ArgValue.string
           ("myapp/1.0" ++ " " ++ grpc_node_user_agent "1.0")) }] ∧
    ((ParseChannelArgs "1.0"
        (JsValue.obj [(GRPC_ARG_PRIMARY_USER_AGENT_STRING,
          JsValue.str "myapp/1.0")])).1.getD []).length =
      ([(GRPC_ARG_PRIMARY_USER_AGENT_STRING, JsValue.str "myapp/1.0")] :
        List (String × JsValue)).length :=
  ⟨⟨by decide, by decide⟩,
   (user_agent_entry_content "1.0"
     [(GRPC_ARG_PRIMARY_USER_AGENT_STRING, JsValue.str "myapp/1.0")]
     (by decide) (by decide)).1 "myapp/1.0" (List.mem_singleton.mpr rfl)⟩

/-- Helper: any number of Close invocations on an already-closed channel
leaves it closed and performs no native release. -/
theorem closeN_closed (n : Nat) :
    closeN n { wrapped_channel := none } = ({ wrapped_channel := none }, []) := by
  induction n with
  | zero => rfl
  | succ m ih => simp [closeN, Channel.Close, ih]

/-- C5: Close is idempotent and teardown after Close is free of releases.
The second Close returns the same state as the first and performs no
effect, the state after one Close is closed (handle null), the destructor
after a Close performs no release, and across any run of one or more Close
invocations followed by teardown the native handle is released at most
once. -/
theorem close_idempotent_no_double_free (c : Channel) (n : Nat) :
    (Channel.Close (Channel.Close c).1).1 = (Channel.Close c).1 ∧
    (Channel.Close (Channel.Close c).1).2 = [] ∧
    ((Channel.Close c).1).wrapped_channel = none ∧
    Channel.destructor (Channel.Close c).1 = [] ∧
    (lifecycleEvents (n + 1) c).countP isDestroy ≤ 1 := by
  cases hc : c.wrapped_channel with
  | none =>
    have hcc : c = { wrapped_channel := none } := by
      cases c; simp_all
    subst hcc
    refine ⟨rfl, rfl, rfl, rfl, ?_⟩
    simp [lifecycleEvents, closeN_closed, Channel.destructor]
  | some h =>
    have hcc : c = { wrapped_channel := some h } := by
      cases c; simp_all
    subst hcc
    refine ⟨rfl, rfl, rfl, rfl, ?_⟩
    simp [lifecycleEvents, closeN, Channel.Close, closeN_closed,
      Channel.destructor, isDestroy]

/-- C4: every open-channel operation invoked on a closed channel (handle
null) — getTarget, getConnectivityState, watchConnectivityState with
otherwise valid arguments, and createCall with otherwise valid arguments —
returns the synchronous already-closed error and performs no native
operation (its effect list is empty).  For createCall the host argument
needs no validity assumption because the closed check precedes the host
check in the source. -/
theorem closed_channel_operations_fail (t : String) (st : Nat)
    (b a0 a1 a2 m0 m1 m2 m3 m4 : JsValue) (eng : Option Nat)
    (h0 : a0.isUint32 = true) (h1 : (a1.isNumber || a1.isDate) = true)
    (h2 : a2.isFunction = true)
    (hm0 : m0.isString = true) (hm1 : (m1.isNumber || m1.isDate) = true)
    (hm3 : (parentOf m3).isSome = true) (hm4 : (flagsOf m4).isSome = true) :
    Channel.GetTarget { wrapped_channel := none } t =
      (.errorThrown "Cannot call getTarget on a closed Channel", []) ∧
    Channel.GetConnectivityState { wrapped_channel := none } b st =
      (.errorThrown "Cannot call getConnectivityState on a closed Channel", []) ∧
    Channel.WatchConnectivityState { wrapped_channel := none } a0 a1 a2 =
      (.errorThrown "Cannot call watchConnectivityState on a closed Channel", []) ∧
    Channel.CreateCall { wrapped_channel := none } m0 m1 m2 m3 m4 eng =
      (.errorThrown "Cannot createCall with a closed Channel", []) := by
  refine ⟨rfl, rfl, ?_, ?_⟩
  · simp [Channel.WatchConnectivityState, h0, h1, h2]
  · obtain ⟨p, hp⟩ := Option.isSome_iff_exists.mp hm3
    obtain ⟨f, hf⟩ := Option.isSome_iff_exists.mp hm4
    simp [Channel.CreateCall, hm0, hm1, hp, hf]

/-- C4 witness: on a closed channel, all four operations with valid
arguments return the already-closed error without touching the engine. -/
theorem closed_channel_operations_fail_witness :
    ((JsValue.intNum 0).isUint32 = true ∧
      ((JsValue.intNum 5).isNumber || (JsValue.intNum 5).isDate) = true ∧
      (JsValue.func 1).isFunction = true ∧
      (JsValue.str "m").isString = true ∧
      ((JsValue.date 9).isNumber || (JsValue.date 9).isDate) = true ∧
      (parentOf JsValue.undefined).isSome = true ∧
      (flagsOf JsValue.nullVal).isSome = true) ∧
    (Channel.GetTarget { wrapped_channel := none } "tgt" =
      (.errorThrown "Cannot call getTarget on a closed Channel", []) ∧
    Channel.GetConnectivityState { wrapped_channel := none }
        (JsValue.boolean true) 2 =
      (.errorThrown "Cannot call getConnectivityState on a closed Channel", []) ∧
    Channel.WatchConnectivityState { wrapped_channel := none }
        (JsValue.intNum 0) (JsValue.intNum 5) (JsValue.func 1) =
      (.errorThrown "Cannot call watchConnectivityState on a closed Channel", []) ∧
    Channel.CreateCall { wrapped_channel := none } (JsValue.str "m")
        (JsValue.date 9) (JsValue.str "host") JsValue.undefined JsValue.nullVal
        (some 3) =
      (.errorThrown "Cannot createCall with a closed Channel", [])) :=
  ⟨by decide,
   closed_channel_operations_fail "tgt" 2 (JsValue.boolean true)
     (JsValue.intNum 0) (JsValue.intNum 5) (JsValue.func 1)
     (JsValue.str "m") (JsValue.date 9) (JsValue.str "host")
     JsValue.undefined JsValue.nullVal (some 3)
     rfl rfl rfl rfl rfl rfl rfl⟩

/-- C10: on an open channel, getConnectivityState hands the engine
try_to_connect equal to StrictEqualsTrue of its argument — true exactly when
the argument is the boolean value true, false for every other value
(truthy non-booleans, numbers, strings, and a missing argument alike) — and
never raises a type error: the result is always the state return. -/
theorem try_to_connect_strict_boolean_true (h st : Nat) (a : JsValue) :
    Channel.GetConnectivityState { wrapped_channel := some h } a st =
      (.retState st, [Effect.check_connectivity_state h (StrictEqualsTrue a)]) ∧
    (StrictEqualsTrue a = true ↔ a = JsValue.boolean true) := by
  refine ⟨rfl, ?_⟩
  constructor
  · intro hs
    cases a with
    | boolean b => cases b with
      | true => rfl
      | false => simp [StrictEqualsTrue] at hs
    | undefined => simp [StrictEqualsTrue] at hs
    | nullVal => simp [StrictEqualsTrue] at hs
    | intNum n => simp [StrictEqualsTrue] at hs
    | fracNum => simp [StrictEqualsTrue] at hs
    | str s => simp [StrictEqualsTrue] at hs
    | date t => simp [StrictEqualsTrue] at hs
    | func i => simp [StrictEqualsTrue] at hs
    | obj e => simp [StrictEqualsTrue] at hs
    | credsObj w => simp [StrictEqualsTrue] at hs
    | callObj ch => simp [StrictEqualsTrue] at hs
  · intro ha; subst ha; rfl

/-- C8 counterexample: 999 is not a recognized connectivity-state value, yet
watchConnectivityState on an open channel accepts it — the code only checks
that the argument is an unsigned 32-bit integer — registers the watch with
the completion scheduler and prods the queue, instead of failing with a
type-mismatch error and registering nothing. -/
theorem watch_unrecognized_state_still_registers :
    recognizedConnectivityState 999 = false ∧
    Channel.WatchConnectivityState { wrapped_channel := some 7 }
        (JsValue.intNum 999) (JsValue.intNum 0) (JsValue.func 0) =
      (.retVoid,
       [Effect.watch_connectivity_state 7 999 0,
        Effect.completion_queue_next]) := by
  constructor
  · rfl
  · rfl

/-- C8 (amended): for every invocation of watchConnectivityState in which
lastObservedState is not an unsigned 32-bit integer, or the deadline is not
a number or date, or the callback is not a function, the operation fails
synchronously with a type-mismatch error and registers nothing with the
completion scheduler (the effect list is empty), so the supplied callback is
never invoked; a uint32 state outside the recognized enumeration is not
rejected. -/
theorem watch_bad_args_no_registration (c : Channel) (a0 a1 a2 : JsValue)
    (h : a0.isUint32 = false ∨ (a1.isNumber = false ∧ a1.isDate = false) ∨
      a2.isFunction = false) :
    ∃ msg, Channel.WatchConnectivityState c a0 a1 a2 =
      (.typeError msg, []) := by
  by_cases h0 : a0.isUint32 = false
  · exact ⟨"watchConnectivityState first argument must be a channel state",
      by simp [Channel.WatchConnectivityState, h0]⟩
  · have h0' : a0.isUint32 = true := by
      cases hb : a0.isUint32
      · exact absurd hb h0
      · rfl
    by_cases h1 : (a1.isNumber || a1.isDate) = false
    · exact ⟨"watchConnectivityState second argument must be a date or a number",
        by simp [Channel.WatchConnectivityState, h0', h1]⟩
    · have h1' : (a1.isNumber || a1.isDate) = true := by
        cases hb : (a1.isNumber || a1.isDate)
        · exact absurd hb h1
        · rfl
      have h2 : a2.isFunction = false := by
        rcases h with h | ⟨hn, hd⟩ | h
        · exact absurd h h0
        · rw [hn, hd] at h1'; simp at h1'
        · exact h
      exact ⟨"watchConnectivityState third argument must be a callback",
        by simp [Channel.WatchConnectivityState, h0', h1', h2]⟩

/-- C8 witness: a non-function callback argument yields a synchronous type
error and no registration. -/
theorem watch_bad_args_no_registration_witness :
    ((JsValue.intNum 0).isUint32 = false ∨
      ((JsValue.intNum 1).isNumber = false ∧ (JsValue.intNum 1).isDate = false) ∨
      (JsValue.str "cb").isFunction = false) ∧
    ∃ msg, Channel.WatchConnectivityState { wrapped_channel := some 4 }
        (JsValue.intNum 0) (JsValue.intNum 1) (JsValue.str "cb") =
      (.typeError msg, []) :=
  ⟨Or.inr (Or.inr rfl),
   watch_bad_args_no_registration { wrapped_channel := some 4 }
     (JsValue.intNum 0) (JsValue.intNum 1) (JsValue.str "cb")
     (Or.inr (Or.inr rfl))⟩

/-- C7: the bad-host exit path of createCall leaks the method encoding.  At
an open channel with a valid string method, a valid deadline, and a host
argument that is neither a string nor null nor undefined, the code creates
the method slice and then returns the host type error without ever
unreffing it: the trace holds one slice creation for the method and zero
releases, contradicting the stated release-exactly-once contract on this
exit path. -/
theorem createCall_bad_host_leaks_method_slice :
    Channel.CreateCall { wrapped_channel := some 5 } (JsValue.str "/svc/m")
        (JsValue.intNum 0) (JsValue.intNum 42) JsValue.undefined
        JsValue.undefined none =
      (.typeError "createCall third argument must be a string",
       [Effect.slice_create "/svc/m"]) ∧
    (Channel.CreateCall { wrapped_channel := some 5 } (JsValue.str "/svc/m")
        (JsValue.intNum 0) (JsValue.intNum 42) JsValue.undefined
        JsValue.undefined none).2.countP
      (fun e => decide (e = Effect.slice_create "/svc/m")) = 1 ∧
    (Channel.CreateCall { wrapped_channel := some 5 } (JsValue.str "/svc/m")
        (JsValue.intNum 0) (JsValue.intNum 42) JsValue.undefined
        JsValue.undefined none).2.countP
      (fun e => decide (e = Effect.slice_unref "/svc/m")) = 0 := by
  refine ⟨rfl, ?_, ?_⟩ <;> decide

/-- C6 counterexample: with a valid target, insecure credentials and empty
options, when the engine returns a null handle the constructor does not
fail: it returns a created instance (whose wrapped handle is null), so no
generic creation failure is propagated to the caller. -/
theorem null_engine_handle_not_a_failure :
    Channel.New "1.0" (JsValue.str "localhost:0") (JsValue.credsObj none)
        JsValue.undefined none =
      (NewResult.created { wrapped_channel := none },
       [Effect.insecure_channel_create "localhost:0", Effect.deallocate_args]) ∧
    newFailed (Channel.New "1.0" (JsValue.str "localhost:0")
        (JsValue.credsObj none) JsValue.undefined none).1 = false := by
  constructor
  · rfl
  · rfl

/-- C6 (amended): if the external transport engine returns a null handle
during channel construction, construction still succeeds and returns a
facade object whose native handle is null — the closed state, so no facade
object in the Open state is observable to the caller — and the argument
list is still released on that path. -/
theorem null_engine_handle_closed_instance (ver target : String)
    (w : Option Nat) (arg2 : JsValue)
    (hok : (ParseChannelArgs ver arg2).2 = true) :
    (Channel.New ver (JsValue.str target) (JsValue.credsObj w) arg2 none).1 =
      NewResult.created { wrapped_channel := none } ∧
    Effect.deallocate_args ∈
      (Channel.New ver (JsValue.str target) (JsValue.credsObj w) arg2 none).2 := by
  cases w with
  | none => simp [Channel.New, hok, JsValue.isString]
  | some cr => simp [Channel.New, hok, JsValue.isString]

/-- C6 witness: concrete localhost construction with a null engine result
returns a closed instance and still releases the argument list. -/
theorem null_engine_handle_closed_instance_witness :
    (ParseChannelArgs "1.0" (JsValue.obj [])).2 = true ∧
    ((Channel.New "1.0" (JsValue.str "localhost:0") (JsValue.credsObj (some 8))
        (JsValue.obj []) none).1 =
      NewResult.created { wrapped_channel := none } ∧
    Effect.deallocate_args ∈
      (Channel.New "1.0" (JsValue.str "localhost:0") (JsValue.credsObj (some 8))
        (JsValue.obj []) none).2) :=
  ⟨rfl,
   null_engine_handle_closed_instance "1.0" "localhost:0" (some 8)
     (JsValue.obj []) rfl⟩

/-- C9 counterexample: a null credentials argument does not create an
unauthenticated channel — ChannelCredentials::HasInstance rejects it and the
constructor throws a type error, performing no channel creation at all. -/
theorem null_credentials_rejected :
    Channel.New "1.0" (JsValue.str "localhost:0") JsValue.nullVal
        JsValue.undefined (some 3) =
      (NewResult.typeError "Channel second argument must be a ChannelCredentials",
       []) := by
  rfl

/-- C9 (amended): channel construction requires the credentials argument to
be a ChannelCredentials instance.  An instance wrapping null native
credentials yields an insecure (unauthenticated) channel creation, an
instance wrapping concrete material yields a secured channel creation with
that material, and any credentials argument that is not a ChannelCredentials
instance — null included — is rejected with a type-mismatch error before any
engine call. -/
theorem credentials_dispatch (ver target : String) (cr : Nat) (arg2 : JsValue)
    (eng : Option Nat) (v : JsValue)
    (hok : (ParseChannelArgs ver arg2).2 = true)
    (hv : credsInstance v = false) :
    Channel.New ver (JsValue.str target) (JsValue.credsObj none) arg2 eng =
      (NewResult.created { wrapped_channel := eng },
       [Effect.insecure_channel_create target, Effect.deallocate_args]) ∧
    Channel.New ver (JsValue.str target) (JsValue.credsObj (some cr)) arg2 eng =
      (NewResult.created { wrapped_channel := eng },
       [Effect.secure_channel_create cr target, Effect.deallocate_args]) ∧
    Channel.New ver (JsValue.str target) v arg2 eng =
      (NewResult.typeError "Channel second argument must be a ChannelCredentials",
       []) := by
  refine ⟨?_, ?_, ?_⟩
  · simp [Channel.New, hok, JsValue.isString, JsValue.asString]
  · simp [Channel.New, hok, JsValue.isString, JsValue.asString]
  · cases v with
    | credsObj w => simp [credsInstance] at hv
    | undefined => rfl
    | nullVal => rfl
    | boolean b => rfl
    | intNum n => rfl
    | fracNum => rfl
    | str s => rfl
    | date t => rfl
    | func i => rfl
    | obj e => rfl
    | callObj ch => rfl

/-- C9 witness: with empty options, insecure-wrapping credentials create an
insecure channel, material-wrapping credentials create a secure channel, and
a null credentials argument is a type error. -/
theorem credentials_dispatch_witness :
    ((ParseChannelArgs "1.0" JsValue.undefined).2 = true ∧
      credsInstance JsValue.nullVal = false) ∧
    (Channel.New "1.0" (JsValue.str "t") (JsValue.credsObj none)
        JsValue.undefined (some 9) =
      (NewResult.created { wrapped_channel := some 9 },
       [Effect.insecure_channel_create "t", Effect.deallocate_args]) ∧
    Channel.New "1.0" (JsValue.str "t") (JsValue.credsObj (some 2))
        JsValue.undefined (some 9) =
      (NewResult.created { wrapped_channel := some 9 },
       [Effect.secure_channel_create 2 "t", Effect.deallocate_args]) ∧
    Channel.New "1.0" (JsValue.str "t") JsValue.nullVal JsValue.undefined
        (some 9) =
      (NewResult.typeError "Channel second argument must be a ChannelCredentials",
       [])) :=
  ⟨⟨rfl, rfl⟩,
   credentials_dispatch "1.0" "t" 2 JsValue.undefined (some 9) JsValue.nullVal
     rfl rfl⟩

end GrpcNode
